import Mathlib

set_option maxRecDepth 40000

/-!
# Verification of the source-encoding resolver of `grun4py.py`

Shallow embedding of the encoding-detection pipeline of
`src/port_Python3/grun4py.py`: BOM detection, the two-line ASCII
declaration scanner with its two regexes, alias normalization, conflict
resolution, and the decode wrapper.  Files are modelled as byte streams
(`List Nat`); the file path argument of the Python functions is modelled
by the display name (`pathlib.Path(file_path).name`) that the error
messages embed.
-/

namespace Grun4py

/-- Prefix test with the pattern as first argument (the recursion is on
the pattern, so an exhausted pattern accepts without inspecting the rest
of the data). -/
def startswithAux {α : Type} [DecidableEq α] : List α → List α → Bool
  | [], _ => true
  | _ :: _, [] => false
  | q :: qs, b :: bs => b = q && startswithAux qs bs

/-- Python's `bytes.startswith`: does `l` begin with `p`? -/
def startswith {α : Type} [DecidableEq α] (l p : List α) : Bool :=
  startswithAux p l

/-- Constant `Encodings.UTF8`. -/
def UTF8 : String := "utf-8"

/-- Constant `Encodings.UTF8_BOM = bytes([0xef, 0xbb, 0xbf])`. -/
def UTF8_BOM : List Nat := [0xef, 0xbb, 0xbf]

/-- Constant `Encodings.UTF32_BE_BOM = bytes([0x00, 0x00, 0xfe, 0xff])`. -/
def UTF32_BE_BOM : List Nat := [0x00, 0x00, 0xfe, 0xff]

/-- Constant `Encodings.UTF32_LE_BOM = bytes([0xff, 0xfe, 0x00, 0x00])`. -/
def UTF32_LE_BOM : List Nat := [0xff, 0xfe, 0x00, 0x00]

/-- Constant `Encodings.UTF16_BE_BOM = bytes([0xfe, 0xff])`. -/
def UTF16_BE_BOM : List Nat := [0xfe, 0xff]

/-- Constant `Encodings.UTF16_LE_BOM = bytes([0xff, 0xfe])`. -/
def UTF16_LE_BOM : List Nat := [0xff, 0xfe]

/-- Constant `Encodings.MAX_BOM_LENGTH`. -/
def MAX_BOM_LENGTH : Nat := 4

/-- Constant `Encodings.MAX_ASCII`. -/
def MAX_ASCII : Nat := 0x7f

/-- Function `Grun4py.bomError`: the message of the `RuntimeError` it builds,
`f"Invalid BOM encoding for '{pathlib.Path(file_path).name}': {msg}"`. -/
def bomError (fileName msg : String) : String :=
  "Invalid BOM encoding for '" ++ fileName ++ "': " ++ msg

/-- Function `Grun4py.detectUTF8BOM`: reads the first `MAX_BOM_LENGTH` bytes and
classifies the BOM, raising (modelled as `Except.error`) on the four
disallowed BOM families in the source's order of checks. -/
def detectUTF8BOM (fileName : String) (data : List Nat) : Except String Bool :=
  let header := data.take MAX_BOM_LENGTH
  if startswith header UTF8_BOM then .ok true
  else if startswith header UTF32_BE_BOM then .error (bomError fileName "UTF-32 BE BOM")
  else if startswith header UTF32_LE_BOM then .error (bomError fileName "UTF-32 LE BOM")
  else if startswith header UTF16_BE_BOM then .error (bomError fileName "UTF-16 BE BOM")
  else if startswith header UTF16_LE_BOM then .error (bomError fileName "UTF-16 LE BOM")
  else .ok false

/-- Python's `str.lower`, character-wise (the encoding names scanned here are
ASCII, see `readAsciiLine`). -/
def strLower (s : String) : String :=
  ⟨s.data.map Char.toLower⟩

/-- Python's `str.replace(c, "")` for a single-character pattern: drop every
occurrence of `c`. -/
def removeChar (c : Char) (s : String) : String :=
  ⟨s.data.filter (fun x => x ≠ c)⟩

/-- Python's `str.removesuffix`: drop `suf` from the end of `s` when present. -/
def removesuffix (s suf : String) : String :=
  if suf.data.length ≤ s.data.length ∧
      s.data.drop (s.data.length - suf.data.length) = suf.data then
    ⟨s.data.take (s.data.length - suf.data.length)⟩
  else s

/-- Table `Grun4py.ENCODING_MAP` (all 17 entries, in source order). -/
def ENCODING_MAP : List (String × String) :=
  [("utf8sig", "utf-8"),
   ("utf8", "utf-8"),
   ("utf", "utf-8"),
   ("utf16le", "utf-16-le"),
   ("utf16", "utf-16-le"),
   ("ucs2", "utf-16-le"),
   ("ucs2le", "utf-16-le"),
   ("latin1", "latin-1"),
   ("latin", "latin-1"),
   ("iso88591", "latin-1"),
   ("iso8859", "latin-1"),
   ("cp819", "latin-1"),
   ("ascii", "ascii"),
   ("usascii", "ascii"),
   ("ansix341968", "ascii"),
   ("cp367", "ascii"),
   ("binary", "latin-1")]

/-- The normalized lookup key of `Grun4py.normalizeEncoding`:
`enc.lower().replace("_","").replace("-","").replace(" ","").removesuffix("codec")`. -/
def normKey (enc : String) : String :=
  removesuffix (removeChar ' ' (removeChar '-' (removeChar '_' (strLower enc)))) "codec"

/-- Function `Grun4py.normalizeEncoding`: empty input is returned as is; otherwise
the normalized key is looked up in `ENCODING_MAP`, and on a miss the
original string `enc` is returned unchanged. -/
def normalizeEncoding (enc : String) : String :=
  if enc = "" then enc
  else
    match ENCODING_MAP.lookup (normKey enc) with
    | some v => v
    | none => enc

/-- Function `Grun4py.isUTF8`: `enc.replace("-", "").replace("_", "").lower() == "utf8"`. -/
def isUTF8 (enc : String) : Bool :=
  strLower (removeChar '_' (removeChar '-' enc)) = "utf8"

/-- The message of the `RuntimeError` of `Grun4py.resolveFinalEncoding`:
`f"Encoding problem for '{pathlib.Path(file_path).name}': {Grun4py.UTF8} BOM"`. -/
def encodingConflictError (fileName : String) : String :=
  "Encoding problem for '" ++ fileName ++ "': " ++ UTF8 ++ " BOM"

/-- Function `Grun4py.resolveFinalEncoding`: raises (modelled as `Except.error`) on
a declaration/BOM conflict, else returns `comment_encoding or UTF8`. -/
def resolveFinalEncoding (fileName : String) (has_utf8_bom : Bool)
    (comment_encoding : String) : Except String String :=
  if comment_encoding ≠ "" ∧ has_utf8_bom = true ∧ isUTF8 comment_encoding = false then
    .error (encodingConflictError fileName)
  else
    .ok (if comment_encoding = "" then UTF8 else comment_encoding)

/-- Function `Grun4py.readAsciiLine`: reads bytes until end of stream or a `\n`
(10); any byte above `MAX_ASCII` aborts the whole line with `None`; a
`\r` (13) byte is never appended; the line read and the remaining stream
are returned. -/
def readAsciiLine : List Nat → Option (List Char × List Nat)
  | [] => some ([], [])
  | b :: rest =>
    if MAX_ASCII < b then none
    else if b = 10 then some ([], rest)
    else
      match readAsciiLine rest with
      | none => none
      | some (cs, r) => some (if b = 13 then cs else Char.ofNat b :: cs, r)

/-- The class `[ \t\f]` of the two regexes. -/
def isBlankChar (c : Char) : Bool :=
  c = ' ' || c = '\t' || c = Char.ofNat 12

/-- Regex `Grun4py.COMMENT_REGEX = r'^[ \t\f]*(#.*)?$'` applied with `re.match`
to a line without `\n`: after the maximal run of blanks the line is over
or a `#` begins a comment. -/
def matchesComment (line : List Char) : Bool :=
  match line.dropWhile isBlankChar with
  | [] => true
  | c :: _ => c = '#'

/-- The class `[-_.a-zA-Z0-9]` of the capture group of `ENCODING_REGEX`. -/
def isTokenChar (c : Char) : Bool :=
  c = '-' || c = '_' || c = '.' ||
  ('a' ≤ c && c ≤ 'z') || ('A' ≤ c && c ≤ 'Z') || ('0' ≤ c && c ≤ '9')

/-- One attempt of `coding[:=][ \t]*([-_.a-zA-Z0-9]+)` at a fixed
position: `coding`, then `:` or `=`, then a run of spaces/tabs, then a
non-empty greedy token; `none` if any part fails here. -/
def tryCodingAt (cs : List Char) : Option (List Char) :=
  if startswith cs "coding".data then
    match cs.drop 6 with
    | [] => none
    | c :: rest =>
      if c = ':' || c = '=' then
        let tok := (rest.dropWhile (fun x => x = ' ' || x = '\t')).takeWhile isTokenChar
        if tok = [] then none else some tok
      else none
  else none

/-- The lazy `.*?coding[:=][ \t]*([-_.a-zA-Z0-9]+)` search of
`ENCODING_REGEX`: try each position left to right, backtracking past a
`coding[:=]` occurrence whose token part fails. -/
def searchCoding : List Char → Option (List Char)
  | [] => tryCodingAt []
  | c :: rest =>
    match tryCodingAt (c :: rest) with
    | some tok => some tok
    | none => searchCoding rest

/-- Function `Grun4py.extractEncodingFromLine` with
`ENCODING_REGEX = r'^[ \t\f]*#.*?coding[:=][ \t]*([-_.a-zA-Z0-9]+)'`:
anchored match of blanks then `#`, then the lazy search for the coding
token; the captured group is normalized, a failed match yields `""`. -/
def extractEncodingFromLine (line : List Char) : String :=
  match line.dropWhile isBlankChar with
  | [] => ""
  | c :: rest =>
    if c = '#' then
      match searchCoding rest with
      | some tok => normalizeEncoding (String.mk tok)
      | none => ""
    else ""

/-- The `for _ in range(2)` loop of `Grun4py.detectEncodingFromComments`,
with the remaining iteration count as fuel: read a line (`none` from
`readAsciiLine` ends the scan empty), return a non-empty extraction from
a comment-or-blank line, stop empty at a non-comment line, and give up
empty when the iterations run out. -/
def scanLines : Nat → List Nat → String
  | 0, _ => ""
  | n + 1, stream =>
    match readAsciiLine stream with
    | none => ""
    | some (line, rest) =>
      if matchesComment line then
        let enc := extractEncodingFromLine line
        if enc ≠ "" then enc else scanLines n rest
      else ""

/-- Function `Grun4py.detectEncodingFromComments`: skip the 3 BOM bytes when a
UTF-8 BOM was detected, then scan at most 2 lines. -/
def detectEncodingFromComments (data : List Nat) (has_utf8_bom : Bool) : String :=
  scanLines 2 (if has_utf8_bom then data.drop UTF8_BOM.length else data)

/-- Function `Grun4py.detectEncoding`: the pipeline BOM detection → declaration
scan → resolution; a BOM error aborts before scanning. -/
def detectEncoding (fileName : String) (data : List Nat) : Except String String :=
  match detectUTF8BOM fileName data with
  | .error e => .error e
  | .ok has_utf8_bom =>
    resolveFinalEncoding fileName has_utf8_bom
      (detectEncodingFromComments data has_utf8_bom)

/-- The message of the `RuntimeError` of `Grun4py.readFileWithEncoding`:
`f"Failed to decode file with encoding '{encoding_name}': {ex}"`. -/
def decodeErrorMessage (encoding_name cause : String) : String :=
  "Failed to decode file with encoding '" ++ encoding_name ++ "': " ++ cause

/-- Function `Grun4py.readFileWithEncoding`: the UTF-8 equality check selects a
direct strict UTF-8 text read whose failure propagates as is; any other
encoding goes through `codecs.decode`, whose failure is wrapped in a
`RuntimeError` built from `decodeErrorMessage`.  The two decoders are
external library calls (Python's `open(..., encoding="utf-8")` and
`codecs.decode`) and enter as parameters: each takes the raw bytes (and
the encoding name) and either returns the decoded text or fails with the
exception's message.  `_file_path` models the `file_path` argument of the
source, which only selects the bytes read (here passed as `data`) and is
never consulted when the error message is built. -/
def readFileWithEncoding (utf8Read : List Nat → Except String String)
    (codecsDecode : List Nat → String → Except String String)
    (_file_path : String) (data : List Nat) (encoding_name : String) :
    Except String String :=
  if isUTF8 encoding_name then utf8Read data
  else
    match codecsDecode data encoding_name with
    | .ok text => .ok text
    | .error ex => .error (decodeErrorMessage encoding_name ex)

/-- The bytes of an ASCII string, for concrete test streams. -/
def asciiBytes (s : String) : List Nat :=
  s.data.map Char.toNat

/-- Predicate: `sub` occurs contiguously inside `s`. -/
def strContains (s sub : String) : Prop :=
  sub.data <:+: s.data

instance (s sub : String) : Decidable (strContains s sub) := by
  unfold strContains; infer_instance

/-- A byte run that stays within one logical line: ASCII throughout and
free of `\n`. -/
def goodLine (l : List Nat) : Prop :=
  ∀ x ∈ l, x ≤ MAX_ASCII ∧ x ≠ 10

instance (l : List Nat) : Decidable (goodLine l) := by
  unfold goodLine; infer_instance

/-- The characters `readAsciiLine` produces from a byte run: every `\r`
(13) dropped, the rest taken as characters. -/
def lineChars (l : List Nat) : List Char :=
  (l.filter (fun b => b ≠ 13)).map Char.ofNat

/-! ### Helper lemmas on line reading -/

theorem readAsciiLine_newline (pre : List Nat) (rest : List Nat)
    (h : goodLine pre) :
    readAsciiLine (pre ++ 10 :: rest) = some (lineChars pre, rest) := by
  induction pre with
  | nil => simp [readAsciiLine, lineChars, MAX_ASCII]
  | cons b t ih =>
    obtain ⟨hb, hb10⟩ := h b (List.mem_cons_self b t)
    have ht : goodLine t := fun x hx => h x (List.mem_cons_of_mem b hx)
    have hnb : ¬ MAX_ASCII < b := Nat.not_lt.mpr hb
    have hb127 : b ≤ 127 := hb
    by_cases hb13 : b = 13 <;>
      simp [readAsciiLine, hnb, hb10, hb13, ih ht, lineChars, MAX_ASCII, hb127]

theorem readAsciiLine_eos (pre : List Nat) (h : goodLine pre) :
    readAsciiLine pre = some (lineChars pre, []) := by
  induction pre with
  | nil => simp [readAsciiLine, lineChars]
  | cons b t ih =>
    obtain ⟨hb, hb10⟩ := h b (List.mem_cons_self b t)
    have ht : goodLine t := fun x hx => h x (List.mem_cons_of_mem b hx)
    have hnb : ¬ MAX_ASCII < b := Nat.not_lt.mpr hb
    have hb127 : b ≤ 127 := hb
    by_cases hb13 : b = 13 <;>
      simp [readAsciiLine, hnb, hb10, hb13, ih ht, lineChars, MAX_ASCII, hb127]

theorem readAsciiLine_abort (pre : List Nat) (x : Nat) (rest : List Nat)
    (h : goodLine pre) (hx : MAX_ASCII < x) :
    readAsciiLine (pre ++ x :: rest) = none := by
  induction pre with
  | nil => simp [readAsciiLine, hx]
  | cons b t ih =>
    obtain ⟨hb, hb10⟩ := h b (List.mem_cons_self b t)
    have ht : goodLine t := fun y hy => h y (List.mem_cons_of_mem b hy)
    have hnb : ¬ MAX_ASCII < b := Nat.not_lt.mpr hb
    simp [readAsciiLine, hnb, hb10, ih ht]

/-! ### Helper lemmas on the two-line scan loop -/

theorem scanLines_zero (stream : List Nat) : scanLines 0 stream = "" := rfl

theorem scanLines_none (n : Nat) (stream : List Nat)
    (h : readAsciiLine stream = none) : scanLines (n + 1) stream = "" := by
  simp [scanLines, h]

theorem scanLines_noncomment (n : Nat) (stream : List Nat)
    (line : List Char) (rest : List Nat)
    (h : readAsciiLine stream = some (line, rest))
    (hc : matchesComment line = false) : scanLines (n + 1) stream = "" := by
  simp [scanLines, h, hc]

theorem scanLines_found (n : Nat) (stream : List Nat)
    (line : List Char) (rest : List Nat)
    (h : readAsciiLine stream = some (line, rest))
    (hc : matchesComment line = true)
    (he : extractEncodingFromLine line ≠ "") :
    scanLines (n + 1) stream = extractEncodingFromLine line := by
  simp [scanLines, h, hc, he]

theorem scanLines_continue (n : Nat) (stream : List Nat)
    (line : List Char) (rest : List Nat)
    (h : readAsciiLine stream = some (line, rest))
    (hc : matchesComment line = true)
    (he : extractEncodingFromLine line = "") :
    scanLines (n + 1) stream = scanLines n rest := by
  simp [scanLines, h, hc, he]

/-! ### Helper lemmas on BOM detection and the alias table -/

theorem startswith_take {α : Type} [DecidableEq α] (p l : List α) (n : Nat)
    (h : p.length ≤ n) : startswith (l.take n) p = startswith l p := by
  unfold startswith
  induction p generalizing l n with
  | nil => simp [startswithAux]
  | cons a q ih =>
    cases l with
    | nil => simp [startswithAux]
    | cons b t =>
      cases n with
      | zero => simp at h
      | succ m =>
        simp only [List.take_succ_cons, startswithAux]
        rw [ih t m (by simpa using h)]

theorem detectUTF8BOM_no_match (fileName : String) (data : List Nat)
    (h1 : startswith data UTF8_BOM = false)
    (h2 : startswith data UTF32_BE_BOM = false)
    (h3 : startswith data UTF32_LE_BOM = false)
    (h4 : startswith data UTF16_BE_BOM = false)
    (h5 : startswith data UTF16_LE_BOM = false) :
    detectUTF8BOM fileName data = .ok false := by
  have e1 := (startswith_take UTF8_BOM data MAX_BOM_LENGTH (by decide)).trans h1
  have e2 := (startswith_take UTF32_BE_BOM data MAX_BOM_LENGTH (by decide)).trans h2
  have e3 := (startswith_take UTF32_LE_BOM data MAX_BOM_LENGTH (by decide)).trans h3
  have e4 := (startswith_take UTF16_BE_BOM data MAX_BOM_LENGTH (by decide)).trans h4
  have e5 := (startswith_take UTF16_LE_BOM data MAX_BOM_LENGTH (by decide)).trans h5
  simp [detectUTF8BOM, e1, e2, e3, e4, e5]

theorem lookup_mem {α β : Type} [BEq α] (k : α) (l : List (α × β)) (v : β)
    (h : l.lookup k = some v) : ∃ p ∈ l, p.2 = v := by
  induction l with
  | nil => simp [List.lookup] at h
  | cons a t ih =>
    obtain ⟨k', b⟩ := a
    simp only [List.lookup] at h
    cases hk : k == k' with
    | true =>
      rw [hk] at h
      exact ⟨(k', b), List.mem_cons_self _ _, by simpa using h⟩
    | false =>
      rw [hk] at h
      obtain ⟨p, hp, hv⟩ := ih h
      exact ⟨p, List.mem_cons_of_mem _ hp, hv⟩

theorem normalizeEncoding_fixed_of_mem :
    ∀ p ∈ ENCODING_MAP, normalizeEncoding p.2 = p.2 := by decide

theorem normalizeEncoding_of_miss (enc : String)
    (h : ENCODING_MAP.lookup (normKey enc) = none) :
    normalizeEncoding enc = enc := by
  by_cases he : enc = "" <;> simp [normalizeEncoding, he, h]

theorem normalizeEncoding_of_hit (enc v : String)
    (h : ENCODING_MAP.lookup (normKey enc) = some v)
    (hne : enc ≠ "") : normalizeEncoding enc = v := by
  simp [normalizeEncoding, hne, h]

theorem strContains_middle (p s q : String) : strContains (p ++ s ++ q) s := by
  unfold strContains
  simp only [String.data_append]
  exact List.infix_append _ _ _

theorem extract_singleton (c : Char) : extractEncodingFromLine [c] = "" := by
  by_cases hbl : isBlankChar c
  · simp [extractEncodingFromLine, List.dropWhile, hbl]
  · by_cases hch : c = '#'
    · rw [hch]; decide
    · simp [extractEncodingFromLine, List.dropWhile, hbl, hch]

theorem strContains_decodeError (enc ex : String) :
    strContains (decodeErrorMessage enc ex) enc := by
  have e : decodeErrorMessage enc ex =
      "Failed to decode file with encoding '" ++ enc ++ ("': " ++ ex) := by
    simp [decodeErrorMessage, String.append_assoc]
  rw [e]; exact strContains_middle _ _ _

theorem strContains_conflictError (fileName : String) :
    strContains (encodingConflictError fileName) fileName := by
  have e : encodingConflictError fileName =
      "Encoding problem for '" ++ fileName ++ ("': " ++ UTF8 ++ " BOM") := by
    simp [encodingConflictError, String.append_assoc]
  rw [e]
  exact strContains_middle _ _ _

/-! ### Claim theorems -/

/-- C1: `resolveFinalEncoding` fails with the conflict error (which names
the file) if and only if the declared encoding is non-empty, a UTF-8 BOM
is present, and the declared encoding fails the `isUTF8` equality check;
in every other case it succeeds and returns the declared encoding when
non-empty, otherwise the default `utf-8`; in particular a UTF-8 BOM with
a UTF-8 declaration, or with no declaration, is never a conflict. -/
theorem C1_resolver_conflict_iff (fileName : String) (has_utf8_bom : Bool)
    (declared : String) :
    ((declared ≠ "" ∧ has_utf8_bom = true ∧ isUTF8 declared = false) ↔
        resolveFinalEncoding fileName has_utf8_bom declared =
          .error (encodingConflictError fileName)) ∧
    strContains (encodingConflictError fileName) fileName ∧
    (¬ (declared ≠ "" ∧ has_utf8_bom = true ∧ isUTF8 declared = false) →
        resolveFinalEncoding fileName has_utf8_bom declared =
          .ok (if declared = "" then "utf-8" else declared)) ∧
    (isUTF8 declared = true →
        resolveFinalEncoding fileName true declared = .ok declared) ∧
    resolveFinalEncoding fileName true "" = .ok "utf-8" := by
  refine ⟨⟨fun h => ?_, fun h => ?_⟩, strContains_conflictError fileName,
    fun h => ?_, fun h => ?_, ?_⟩
  · simp [resolveFinalEncoding, h]
  · by_cases hc : declared ≠ "" ∧ has_utf8_bom = true ∧ isUTF8 declared = false
    · exact hc
    · simp [resolveFinalEncoding, hc] at h
  · simp [resolveFinalEncoding, h, UTF8]
  · have hne : declared ≠ "" := by
      intro he; rw [he] at h; exact absurd h (by decide)
    simp [resolveFinalEncoding, h, hne]
  · simp [resolveFinalEncoding, UTF8]

/-- Witness for C1 at a concrete conflicting input. -/
theorem C1_resolver_conflict_iff_witness :
    resolveFinalEncoding "stub.py" true "latin-1" =
      .error "Encoding problem for 'stub.py': utf-8 BOM" :=
  (C1_resolver_conflict_iff "stub.py" true "latin-1").1.mp (by decide)

/-- C8: alias normalization is idempotent, and maps the aliases
`"UTF_8_SIG"` and `"utf8sig"` to the canonical `"utf-8"`. -/
theorem C8_normalize_idempotent :
    (∀ x : String, normalizeEncoding (normalizeEncoding x) = normalizeEncoding x) ∧
    normalizeEncoding "UTF_8_SIG" = "utf-8" ∧
    normalizeEncoding "utf8sig" = "utf-8" := by
  refine ⟨fun x => ?_, by decide, by decide⟩
  by_cases hx : x = ""
  · subst hx; decide
  · cases h : ENCODING_MAP.lookup (normKey x) with
    | none =>
      have e := normalizeEncoding_of_miss x h
      simp only [e]
    | some v =>
      have e := normalizeEncoding_of_hit x v h hx
      obtain ⟨p, hp, hv⟩ := lookup_mem _ _ _ h
      rw [e, ← hv]
      exact normalizeEncoding_fixed_of_mem p hp

/-- C9 as stated is false: `normalizeEncoding "Shift-JIS"`, whose key is
absent from the table, returns the original spelling `"Shift-JIS"`, not
the separator-stripped lower-cased `"shiftjis"`. -/
theorem C9_counterexample :
    normalizeEncoding "Shift-JIS" = "Shift-JIS" ∧
    normalizeEncoding "Shift-JIS" ≠ "shiftjis" := by decide

/-- C9 (amended): for every raw encoding name whose normalized key is
absent from the alias table, normalize returns the original raw string
unchanged (not its separator-stripped, lower-cased form). -/
theorem C9_amended_pass_through (enc : String)
    (h : ENCODING_MAP.lookup (normKey enc) = none) :
    normalizeEncoding enc = enc :=
  normalizeEncoding_of_miss enc h

/-- Witness for the amended C9 at `"Shift-JIS"`. -/
theorem C9_amended_pass_through_witness :
    normalizeEncoding "Shift-JIS" = "Shift-JIS" :=
  C9_amended_pass_through "Shift-JIS" (by decide)

/-- C2: BOM classification follows the stated priority order on the first
4 bytes: `EF BB BF` is accepted as a UTF-8 BOM; `00 00 FE FF`,
`FF FE 00 00`, `FE FF` and `FF FE` fail immediately with a `bomError`
naming the corresponding BOM family, and through `detectEncoding` such a
failure pre-empts any declaration content; `FF FE 00 00` is classified as
UTF-32 LE, never as UTF-16 LE; any other prefix means no BOM. -/
theorem C2_bom_priority (fileName : String) :
    (∀ rest : List Nat,
        detectUTF8BOM fileName (0xef :: 0xbb :: 0xbf :: rest) = .ok true) ∧
    (∀ rest : List Nat,
        detectUTF8BOM fileName (0x00 :: 0x00 :: 0xfe :: 0xff :: rest) =
          .error (bomError fileName "UTF-32 BE BOM")) ∧
    (∀ rest : List Nat,
        detectUTF8BOM fileName (0xff :: 0xfe :: 0x00 :: 0x00 :: rest) =
          .error (bomError fileName "UTF-32 LE BOM")) ∧
    (∀ rest : List Nat,
        detectUTF8BOM fileName (0xfe :: 0xff :: rest) =
          .error (bomError fileName "UTF-16 BE BOM")) ∧
    (∀ rest : List Nat,
        detectUTF8BOM fileName (0xff :: 0xfe :: rest) =
          .error (bomError fileName "UTF-32 LE BOM") ∨
        detectUTF8BOM fileName (0xff :: 0xfe :: rest) =
          .error (bomError fileName "UTF-16 LE BOM")) ∧
    (∀ (data : List Nat) (m : String),
        detectUTF8BOM fileName data = .error m →
        detectEncoding fileName data = .error m) ∧
    (∀ data : List Nat,
        startswith data UTF8_BOM = false →
        startswith data UTF32_BE_BOM = false →
        startswith data UTF32_LE_BOM = false →
        startswith data UTF16_BE_BOM = false →
        startswith data UTF16_LE_BOM = false →
        detectUTF8BOM fileName data = .ok false) := by
  refine ⟨fun rest => rfl, fun rest => rfl, fun rest => rfl, fun rest => rfl,
    fun rest => ?_, fun data m h => by simp [detectEncoding, h],
    fun data h1 h2 h3 h4 h5 => detectUTF8BOM_no_match fileName data h1 h2 h3 h4 h5⟩
  by_cases h3 : startswithAux [0, 0] (rest.take 2)
  · left
    simp [detectUTF8BOM, MAX_BOM_LENGTH, startswith, startswithAux, UTF8_BOM,
      UTF32_BE_BOM, UTF32_LE_BOM, UTF16_BE_BOM, UTF16_LE_BOM, h3]
  · right
    simp [detectUTF8BOM, MAX_BOM_LENGTH, startswith, startswithAux, UTF8_BOM,
      UTF32_BE_BOM, UTF32_LE_BOM, UTF16_BE_BOM, UTF16_LE_BOM, h3]

/-- Witness for C2 at a concrete BOM-free stream. -/
theorem C2_bom_priority_witness :
    detectUTF8BOM "plain.py" (asciiBytes "x = 1\n") = .ok false :=
  (C2_bom_priority "plain.py").2.2.2.2.2.2 (asciiBytes "x = 1\n")
    (by decide) (by decide) (by decide) (by decide) (by decide)

/-- C10: a stream shorter than 2 bytes has no BOM (and raises no error),
and, having no declaration either, resolves to the default `utf-8`. -/
theorem C10_short_stream (fileName : String) (data : List Nat)
    (h : data.length < 2) :
    detectUTF8BOM fileName data = .ok false ∧
    detectEncoding fileName data = .ok "utf-8" := by
  have hbom : detectUTF8BOM fileName data = .ok false := by
    rcases data with _ | ⟨b, _ | ⟨c, t⟩⟩
    · rfl
    · apply detectUTF8BOM_no_match <;>
        simp [startswith, startswithAux, UTF8_BOM, UTF32_BE_BOM, UTF32_LE_BOM,
          UTF16_BE_BOM, UTF16_LE_BOM]
    · simp only [List.length_cons] at h
      omega
  refine ⟨hbom, ?_⟩
  have hscan : detectEncodingFromComments data false = "" := by
    rcases data with _ | ⟨b, _ | ⟨c, t⟩⟩
    · rfl
    · show scanLines 2 [b] = ""
      by_cases h127 : MAX_ASCII < b
      · exact scanLines_none 1 [b] (by simp [readAsciiLine, h127])
      · by_cases hb10 : b = 10
        · subst hb10; rfl
        · have hgood : goodLine [b] := by
            intro x hx
            simp at hx
            subst hx
            exact ⟨Nat.not_lt.mp h127, hb10⟩
          have hline := readAsciiLine_eos [b] hgood
          by_cases hb13 : b = 13
          · subst hb13; rfl
          · have hlc : lineChars [b] = [Char.ofNat b] := by simp [lineChars, hb13]
            rw [hlc] at hline
            have hext := extract_singleton (Char.ofNat b)
            cases hmc : matchesComment [Char.ofNat b]
            · exact scanLines_noncomment 1 [b] _ _ hline hmc
            · rw [scanLines_continue 1 [b] _ _ hline hmc hext]
              rfl
    · simp only [List.length_cons] at h
      omega
  simp only [detectEncoding, hbom, hscan]
  rfl

/-- Witness for C10 at the empty stream. -/
theorem C10_short_stream_witness :
    detectUTF8BOM "tiny.py" [] = .ok false ∧
    detectEncoding "tiny.py" [] = .ok "utf-8" :=
  C10_short_stream "tiny.py" [] (by decide)

/-- C3: the declaration scanner examines at most 2 logical lines,
returns the first successfully extracted (normalized) encoding token
(from the first or the second line), stops immediately empty at the
first line that does not match the comment-or-blank pattern, and never
honors anything past the second line: after two comment lines without a
declaration the remaining stream (a line-3 declaration included) is
ignored. -/
theorem C3_two_line_scan :
    (∀ (data : List Nat) (line : List Char) (rest : List Nat),
        readAsciiLine data = some (line, rest) →
        matchesComment line = true →
        extractEncodingFromLine line ≠ "" →
        detectEncodingFromComments data false = extractEncodingFromLine line) ∧
    (∀ (data : List Nat) (line : List Char) (rest : List Nat),
        readAsciiLine data = some (line, rest) →
        matchesComment line = false →
        detectEncodingFromComments data false = "") ∧
    (∀ (data : List Nat) (l1 l2 : List Char) (r1 r2 : List Nat),
        readAsciiLine data = some (l1, r1) →
        matchesComment l1 = true →
        extractEncodingFromLine l1 = "" →
        readAsciiLine r1 = some (l2, r2) →
        matchesComment l2 = true →
        extractEncodingFromLine l2 ≠ "" →
        detectEncodingFromComments data false = extractEncodingFromLine l2) ∧
    (∀ (data : List Nat) (l1 l2 : List Char) (r1 r2 : List Nat),
        readAsciiLine data = some (l1, r1) →
        matchesComment l1 = true →
        extractEncodingFromLine l1 = "" →
        readAsciiLine r1 = some (l2, r2) →
        matchesComment l2 = false →
        detectEncodingFromComments data false = "") ∧
    (∀ (l1 l2 tail : List Nat), goodLine l1 → goodLine l2 →
        matchesComment (lineChars l1) = true →
        extractEncodingFromLine (lineChars l1) = "" →
        matchesComment (lineChars l2) = true →
        extractEncodingFromLine (lineChars l2) = "" →
        detectEncodingFromComments (l1 ++ 10 :: (l2 ++ 10 :: tail)) false = "") := by
  refine ⟨?_, ?_, ?_, ?_, ?_⟩
  · intro data line rest h hc he
    exact scanLines_found 1 data line rest h hc he
  · intro data line rest h hc
    exact scanLines_noncomment 1 data line rest h hc
  · intro data l1 l2 r1 r2 h1 hc1 he1 h2 hc2 he2
    show scanLines 2 data = _
    rw [scanLines_continue 1 data l1 r1 h1 hc1 he1]
    exact scanLines_found 0 r1 l2 r2 h2 hc2 he2
  · intro data l1 l2 r1 r2 h1 hc1 he1 h2 hc2
    show scanLines 2 data = _
    rw [scanLines_continue 1 data l1 r1 h1 hc1 he1]
    exact scanLines_noncomment 0 r1 l2 r2 h2 hc2
  · intro l1 l2 tail hg1 hg2 hc1 he1 hc2 he2
    have r1 := readAsciiLine_newline l1 (l2 ++ 10 :: tail) hg1
    have r2 := readAsciiLine_newline l2 tail hg2
    show scanLines 2 (l1 ++ 10 :: (l2 ++ 10 :: tail)) = ""
    rw [scanLines_continue 1 _ _ _ r1 hc1 he1,
      scanLines_continue 0 _ _ _ r2 hc2 he2]
    rfl

/-- Witness for C3: a declaration after a non-comment first line is not
honored. -/
theorem C3_two_line_scan_witness :
    detectEncodingFromComments (asciiBytes "x = 1\n# coding: latin-1\n") false = "" :=
  C3_two_line_scan.2.1 (asciiBytes "x = 1\n# coding: latin-1\n")
    "x = 1".data (asciiBytes "# coding: latin-1\n") (by decide) (by decide)

/-- C4: a byte above 0x7F encountered while forming either of the two
scanned lines aborts the whole scan with the empty result (no error). -/
theorem C4_nonascii_aborts :
    (∀ (pre : List Nat) (x : Nat) (rest : List Nat), goodLine pre →
        MAX_ASCII < x →
        detectEncodingFromComments (pre ++ x :: rest) false = "") ∧
    (∀ (l1 pre : List Nat) (x : Nat) (rest : List Nat), goodLine l1 →
        matchesComment (lineChars l1) = true →
        extractEncodingFromLine (lineChars l1) = "" →
        goodLine pre → MAX_ASCII < x →
        detectEncodingFromComments (l1 ++ 10 :: (pre ++ x :: rest)) false = "") := by
  constructor
  · intro pre x rest hg hx
    exact scanLines_none 1 _ (readAsciiLine_abort pre x rest hg hx)
  · intro l1 pre x rest hg1 hc1 he1 hg hx
    have r1 := readAsciiLine_newline l1 (pre ++ x :: rest) hg1
    show scanLines 2 (l1 ++ 10 :: (pre ++ x :: rest)) = ""
    rw [scanLines_continue 1 _ _ _ r1 hc1 he1]
    exact scanLines_none 0 _ (readAsciiLine_abort pre x rest hg hx)

/-- Witness for C4: a comment line interrupted by the non-ASCII byte 200
yields no encoding. -/
theorem C4_nonascii_aborts_witness :
    detectEncodingFromComments [35, 200] false = "" :=
  C4_nonascii_aborts.1 [35] 200 [] (by decide) (by decide)

/-- C5 as stated is false: the unterminated declaration comment
b"# coding: latin-1" (no trailing newline) DOES yield the declared
encoding "latin-1", not the empty result. -/
theorem C5_counterexample :
    detectEncodingFromComments (asciiBytes "# coding: latin-1") false = "latin-1" ∧
    detectEncodingFromComments (asciiBytes "# coding: latin-1") false ≠ "" := by
  constructor <;> decide

/-- C5 (amended): end-of-stream while forming a line yields the partial
line read so far, which the scan then processes like any complete line;
in particular an unterminated declaration comment IS honored:
b"# coding: latin-1" yields "latin-1". -/
theorem C5_amended_eos_partial_line :
    (∀ pre : List Nat, goodLine pre →
        readAsciiLine pre = some (lineChars pre, [])) ∧
    detectEncodingFromComments (asciiBytes "# coding: latin-1") false = "latin-1" :=
  ⟨fun pre h => readAsciiLine_eos pre h, by decide⟩

/-- Witness for the amended C5 at the one-byte stream `b"#"`. -/
theorem C5_amended_eos_partial_line_witness :
    readAsciiLine [35] = some (['#'], []) :=
  C5_amended_eos_partial_line.1 [35] (by decide)

/-- C6 as stated is false: a `\r` byte NOT immediately preceding `\n` is
also dropped: the bytes of "a\rb\n" read as the line "ab", not "a\rb". -/
theorem C6_counterexample :
    readAsciiLine [97, 13, 98, 10] = some (['a', 'b'], []) ∧
    readAsciiLine [97, 13, 98, 10] ≠ some (['a', '\r', 'b'], []) := by
  constructor <;> decide

/-- C6 (amended): every `\r` byte is dropped during line reading, whether
or not it immediately precedes `\n`; a logical line is the maximal run of
bytes up to and excluding the next `\n`, with all `\r` bytes removed. -/
theorem C6_amended_cr_always_dropped (pre rest : List Nat) (h : goodLine pre) :
    readAsciiLine (pre ++ 10 :: rest) =
      some ((pre.filter (fun b => b ≠ 13)).map Char.ofNat, rest) :=
  readAsciiLine_newline pre rest h

/-- Witness for the amended C6 on the bytes of "a\rb\n". -/
theorem C6_amended_cr_always_dropped_witness :
    readAsciiLine ([97, 13, 98] ++ 10 :: []) = some (['a', 'b'], []) :=
  C6_amended_cr_always_dropped [97, 13, 98] [] (by decide)

/-- C7 as stated is false: when the codec of file "example.py" rejects
the byte 0xFF under encoding "ascii" (Python's cause message shown), the
resulting error message contains the encoding name but does NOT contain
the file name. -/
theorem C7_counterexample :
    readFileWithEncoding (fun _ => .error "boom")
        (fun _ _ => .error "ordinal not in range(128)")
        "example.py" [0xff] "ascii" =
      .error (decodeErrorMessage "ascii" "ordinal not in range(128)") ∧
    strContains (decodeErrorMessage "ascii" "ordinal not in range(128)") "ascii" ∧
    ¬ strContains (decodeErrorMessage "ascii" "ordinal not in range(128)") "example.py" := by
  refine ⟨rfl, by decide, by decide⟩

/-- C7 (amended): whenever `codecs.decode` fails on the non-UTF-8 path,
the operation fails with a `DecodeError` whose message includes the
encoding name — but no file name: the message is built from the encoding
name and the codec's cause alone; on the strict UTF-8 path the
reader's outcome (its own error included) propagates unwrapped. -/
theorem C7_amended_decode_error (utf8Read : List Nat → Except String String)
    (codecsDecode : List Nat → String → Except String String)
    (file_path : String) (data : List Nat) (encoding_name ex : String) :
    (isUTF8 encoding_name = false →
        codecsDecode data encoding_name = .error ex →
        readFileWithEncoding utf8Read codecsDecode file_path data encoding_name =
          .error (decodeErrorMessage encoding_name ex) ∧
        strContains (decodeErrorMessage encoding_name ex) encoding_name) ∧
    (isUTF8 encoding_name = true →
        readFileWithEncoding utf8Read codecsDecode file_path data encoding_name =
          utf8Read data) := by
  constructor
  · intro h hc
    exact ⟨by simp [readFileWithEncoding, h, hc], strContains_decodeError _ _⟩
  · intro h
    simp [readFileWithEncoding, h]

/-- Witness for the amended C7 at a concrete failing codec. -/
theorem C7_amended_decode_error_witness :
    readFileWithEncoding (fun _ => .ok "") (fun _ _ => .error "bad")
        "f.py" [0] "latin-1" =
      .error (decodeErrorMessage "latin-1" "bad") :=
  ((C7_amended_decode_error (fun _ => .ok "") (fun _ _ => .error "bad")
      "f.py" [0] "latin-1" "bad").1 (by decide) rfl).1

end Grun4py
